import Mathlib

/-!
A shallow embedding of `pingora-core/src/server/mod.rs`: the process
lifecycle orchestrator of a pingora server. The async Rust code is
modelled as pure Lean functions; nondeterminism coming from the outside
world (arriving OS signals, the result of the socket handoff over the
control socket, the result of the control-socket read at bootstrap, which
arm of a `select` resolves first) is passed in explicitly as environment
arguments. Externally visible steps (sleeps, broadcast attempts,
control-socket reads, runtime shutdowns) are recorded in an ordered event
trace, so that temporal statements of the specification become statements
about trace structure.
-/

namespace Pingora

/-- `EXIT_TIMEOUT`: time to wait before exiting the program, the graceful
period for all existing sessions to finish. -/
def EXIT_TIMEOUT : Nat := 60 * 5

/-- `CLOSE_TIMEOUT`: time to wait before shutting down listening sockets,
the graceful period for the new service to get ready. -/
def CLOSE_TIMEOUT : Nat := 5

/-- `enum ShutdownType`. -/
inductive ShutdownType
| Graceful
| Quick
deriving DecidableEq, Repr

/-- `enum ShutdownSignal`. -/
inductive ShutdownSignal
| Fast
| GracefulTerminate
| GracefulUpgrade
deriving DecidableEq, Repr

/-- The raw OS signals `wait_for_shutdown_signal` listens for. -/
inductive OsSignal
| sigint
| sigterm
| sigquit
deriving DecidableEq, Repr

/-- Which raw signals have a live listener inside
`wait_for_shutdown_signal`: on unix all three; on non-unix platforms the
terminate and quit arms are `std::future::pending` and never complete,
leaving only the interrupt listener. -/
def signalListens (unixPlatform : Bool) : OsSignal → Bool
| OsSignal.sigint => true
| OsSignal.sigterm => unixPlatform
| OsSignal.sigquit => unixPlatform

/-- The outcome each `select` arm of `wait_for_shutdown_signal` yields. -/
def signalOutcome : OsSignal → ShutdownSignal
| OsSignal.sigint => ShutdownSignal.Fast
| OsSignal.sigterm => ShutdownSignal.GracefulTerminate
| OsSignal.sigquit => ShutdownSignal.GracefulUpgrade

/-- `wait_for_shutdown_signal`: a one-shot wait that resolves on the first
arriving signal that has a live listener; arrivals after the first
resolving one are ignored (the wait has already resolved). `none` models a
wait that never completes. -/
def wait_for_shutdown_signal (unixPlatform : Bool) (arrivals : List OsSignal) :
    Option ShutdownSignal :=
  (arrivals.find? (signalListens unixPlatform)).map signalOutcome

/-- Model of the `tokio::sync::watch` channel holding the shutdown flag:
the sender-side value plus whether any receiver is still alive. A send
fails, leaving the value unchanged, once every receiver has been
dropped. -/
structure WatchChannel where
  value : Bool
  hasReceivers : Bool
deriving DecidableEq, Repr

/-- `watch::Sender::send`: store the value when the channel is open;
return the updated channel and whether the send succeeded. -/
def WatchChannel.send (w : WatchChannel) (v : Bool) : WatchChannel × Bool :=
  if w.hasReceivers then ({ w with value := v }, true) else (w, false)

/-- `transfer_fd::Fds`: the content of the listening-socket registry, a
collection of raw socket descriptors. -/
structure Fds where
  fds : List Nat
deriving DecidableEq, Repr

/-- `Fds::new()`: a freshly created, empty descriptor collection. -/
def Fds.new : Fds := { fds := [] }

/-- A registered service, restricted to the part of the `Service` trait
object the orchestrator itself reads: its name and its optional preferred
thread count. -/
structure Service where
  name : String
  threads : Option Nat
deriving DecidableEq, Repr

/-- The fields of `ServerConf` that `server/mod.rs` consumes. -/
structure ServerConf where
  threads : Nat
  work_stealing : Bool
  daemon : Bool
  upgrade_sock : String
deriving DecidableEq, Repr

/-- The fields of the command line options `Opt` that `server/mod.rs`
consumes. -/
structure Opt where
  upgrade : Bool
  test : Bool
deriving DecidableEq, Repr

/-- A `pingora_runtime::Runtime` as created by `create_runtime`: its
logical name, thread count and scheduling policy. -/
structure Runtime where
  name : String
  threads : Nat
  work_steal : Bool
deriving DecidableEq, Repr

/-- The `Server` object (signal handles and the sentry DSN, which carry no
lifecycle-relevant state, are omitted). `shutdown_watch` is the sender
side of the shutdown broadcast; the retained receiver clone
`shutdown_recv` is reflected in `WatchChannel.hasReceivers`. -/
structure Server where
  services : List Service
  listen_fds : Option Fds
  shutdown_watch : WatchChannel
  configuration : ServerConf
  options : Option Opt
deriving DecidableEq, Repr

/-- Result of a fallible external call (`Result<α, nix::Error>`); errors
are identified by their errno value. -/
inductive NixResult (α : Type)
| ok (val : α)
| err (e : Nat)
deriving DecidableEq, Repr

/-- Externally visible steps of the orchestrator, in program order. -/
inductive Event
| sendFdsAttempt (result : NixResult Nat)
| sleepSecs (n : Nat)
| broadcastShutdown (ok : Bool)
| logNoSocks
| socketRead (path : String)
| graceSleep (n : Nat)
| runtimeShutdown (timeoutSecs : Nat)
deriving DecidableEq, Repr

/-- `send_fds`: when the registry is present, lock it and attempt
`send_to_sock` on the configured upgrade socket path; the transmission
outcome is decided by the outside world (`envSend`). Returns `none` when
there is no registry to send. -/
def Server.send_fds (s : Server) (envSend : NixResult Nat) :
    Option (NixResult Nat) :=
  match s.listen_fds with
  | some _ => some envSend
  | none => none

/-- `graceful_upgrade`: if there are sockets to send, attempt the handoff
(logging but not aborting on failure), sleep `CLOSE_TIMEOUT` seconds, then
broadcast shutdown; with no registry, only log. Returns the event trace
and the updated server. -/
def Server.graceful_upgrade (s : Server) (envSend : NixResult Nat) :
    List Event × Server :=
  match s.send_fds envSend with
  | some result =>
      let sent := s.shutdown_watch.send true
      ([Event.sendFdsAttempt result, Event.sleepSecs CLOSE_TIMEOUT,
        Event.broadcastShutdown sent.2],
       { s with shutdown_watch := sent.1 })
  | none => ([Event.logNoSocks], s)

/-- Nondeterminism resolved by the environment while `main_loop` runs:
the handoff transmission outcome, and whether the SIGINT listener armed
during a graceful upgrade wins the race against `graceful_upgrade`. -/
structure MainLoopEnv where
  envSend : NixResult Nat
  sigintDuringUpgrade : Bool
deriving DecidableEq, Repr

/-- `main_loop`: acts on the classified shutdown signal (passed in as the
resolved value of `wait_for_shutdown_signal`) and returns the event trace,
the updated server and the resulting `ShutdownType`. On
`GracefulUpgrade`, a `select` races a fresh SIGINT listener against
`graceful_upgrade`; `env.sigintDuringUpgrade` records which arm won. -/
def Server.main_loop (s : Server) (sig : ShutdownSignal) (env : MainLoopEnv) :
    List Event × Server × ShutdownType :=
  match sig with
  | ShutdownSignal.Fast => ([], s, ShutdownType.Quick)
  | ShutdownSignal.GracefulTerminate =>
      let sent := s.shutdown_watch.send true
      ([Event.broadcastShutdown sent.2],
       { s with shutdown_watch := sent.1 }, ShutdownType.Graceful)
  | ShutdownSignal.GracefulUpgrade =>
      if env.sigintDuringUpgrade then ([], s, ShutdownType.Graceful)
      else
        let r := s.graceful_upgrade env.envSend
        (r.1, r.2, ShutdownType.Graceful)

/-- `create_runtime`: a runtime with the given name, thread count and
scheduling policy (`new_steal` or `new_no_steal`). -/
def Server.create_runtime (name : String) (threads : Nat) (work_steal : Bool) :
    Runtime :=
  if work_steal then { name := name, threads := threads, work_steal := true }
  else { name := name, threads := threads, work_steal := false }

/-- `run_service`: create the service's dedicated runtime (the spawned
service task itself is outside the orchestrator's state, so the clones of
the registry handle and the shutdown receiver are taken but do not affect
the returned `Runtime` value). -/
def Server.run_service (service : Service) (fds : Option Fds)
    (shutdown : WatchChannel) (threads : Nat) (work_stealing : Bool) :
    Runtime :=
  Server.create_runtime service.name threads work_stealing

/-- The `while let Some(service) = self.services.pop()` loop of
`run_services`. `Vec::pop` removes the last element, so the caller passes
the service list reversed and this helper walks it front to back. -/
def runServicesLoop (conf : ServerConf) (fds : Option Fds)
    (shutdown : WatchChannel) : List Service → List Runtime
| [] => []
| svc :: popped =>
    let threads := svc.threads.getD conf.threads
    Server.run_service svc fds shutdown threads conf.work_stealing
      :: runServicesLoop conf fds shutdown popped

/-- `run_services`: drain the registered services (popping from the back),
creating one runtime per service sized by its own thread count when given,
or the configured global default otherwise. -/
def Server.run_services (s : Server) : Server × List Runtime :=
  ({ s with services := [] },
   runServicesLoop s.configuration s.listen_fds s.shutdown_watch
     s.services.reverse)

/-- `load_fds`: start from `Fds::new()`; when upgrading, receive inherited
descriptors over the control socket (`envRead` is the outside world's
answer, and an error is propagated); then install the registry. The trace
records whether a control-socket read was attempted. -/
def Server.load_fds (s : Server) (upgrade : Bool)
    (envRead : NixResult (List Nat)) : List Event × NixResult Server :=
  if upgrade then
    match envRead with
    | NixResult.ok received =>
        ([Event.socketRead s.configuration.upgrade_sock],
         NixResult.ok { s with listen_fds := some { fds := received } })
    | NixResult.err e =>
        ([Event.socketRead s.configuration.upgrade_sock], NixResult.err e)
  else
    ([], NixResult.ok { s with listen_fds := some Fds.new })

/-- Outcome of `bootstrap`: either the process already exited
(`std::process::exit`) with the given code, or bootstrap completed and
returned the updated server. -/
inductive BootstrapResult
| exited (code : Nat)
| ok (s : Server)
deriving DecidableEq, Repr

/-- `bootstrap`: exit with code 0 in test (validate-only) mode; otherwise
load the socket registry, exiting with code 1 when that fails. -/
def Server.bootstrap (s : Server) (envRead : NixResult (List Nat)) :
    List Event × BootstrapResult :=
  if (s.options.map Opt.test).getD false then
    ([], BootstrapResult.exited 0)
  else
    match s.load_fds ((s.options.map Opt.upgrade).getD false) envRead with
    | (tr, NixResult.ok s2) => (tr, BootstrapResult.ok s2)
    | (tr, NixResult.err _) => (tr, BootstrapResult.exited 1)

/-- The per-runtime shutdown timeout chosen after the main loop resolves:
zero seconds on quick exit, five seconds on graceful exit. -/
def shutdownTimeout : ShutdownType → Nat
| ShutdownType.Quick => 0
| ShutdownType.Graceful => 5

/-- The exit sequencing at the end of `run_forever`: the long
`EXIT_TIMEOUT` grace sleep when and only when the outcome is graceful,
then every service runtime is shut down with the type-dependent
timeout. -/
def exitSequence (ty : ShutdownType) (runtimes : List Runtime) : List Event :=
  (match ty with
   | ShutdownType.Graceful => [Event.graceSleep EXIT_TIMEOUT]
   | ShutdownType.Quick => []) ++
  runtimes.map (fun _ => Event.runtimeShutdown (shutdownTimeout ty))

/-- `run_forever`: start all services, block on the main loop, run the
exit sequence, and terminate the process with exit code 0. Returns the
event trace, the exit code and the runtimes that were started. -/
def Server.run_forever (s : Server) (sig : ShutdownSignal) (env : MainLoopEnv) :
    List Event × Nat × List Runtime :=
  let started := s.run_services
  let looped := started.1.main_loop sig env
  (looped.1 ++ exitSequence looped.2.2 started.2, 0, started.2)

/-- The bootstrap-then-run pipeline of a server process: the resulting
exit code and the number of services that were started. -/
def Server.process_run (s : Server) (envRead : NixResult (List Nat))
    (sig : ShutdownSignal) (env : MainLoopEnv) : Nat × Nat :=
  match (s.bootstrap envRead).2 with
  | BootstrapResult.exited code => (code, 0)
  | BootstrapResult.ok s2 =>
      let r := s2.run_forever sig env
      (r.2.1, r.2.2.length)

/-- `Server::new`: create the shutdown watch channel with initial value
`false` (the retained receiver clone keeps it open), resolve the
configuration (performed by the configuration collaborator, whose outcome
is `confResult`), and build the server with no services and no registry
yet. -/
def Server.new (opt : Option Opt) (confResult : NixResult ServerConf) :
    NixResult Server :=
  match confResult with
  | NixResult.ok conf =>
      NixResult.ok
        { services := [], listen_fds := none,
          shutdown_watch := { value := false, hasReceivers := true },
          configuration := conf, options := opt }
  | NixResult.err e => NixResult.err e

/-- A configuration value used for concrete instantiations. -/
def testConf : ServerConf :=
  { threads := 8, work_stealing := true, daemon := false,
    upgrade_sock := "/tmp/upgrade.sock" }

/-- A server with an open shutdown channel, an empty registry present, no
options. -/
def testServer : Server :=
  { services := [], listen_fds := some Fds.new,
    shutdown_watch := { value := false, hasReceivers := true },
    configuration := testConf, options := none }

/-- A server with no registry and no options (the state right after
`Server::new`). -/
def noFdsServer : Server := { testServer with listen_fds := none }

/-- A server invoked with the test (validate-only) flag and the upgrade
flag unset. -/
def validateServer : Server :=
  { testServer with options := some { upgrade := false, test := true } }

/-- A server invoked with the upgrade flag set and the test flag unset. -/
def upgradeServer : Server :=
  { noFdsServer with options := some { upgrade := true, test := false } }

/-- A server whose shutdown channel is already closed (all receivers
dropped). -/
def closedWatchServer : Server :=
  { testServer with shutdown_watch := { value := false, hasReceivers := false } }

/-- A server whose shutdown flag is already `true`. -/
def firedWatchServer : Server :=
  { testServer with shutdown_watch := { value := true, hasReceivers := true } }

/-- A server with three registered services with thread counts two, four
and default. -/
def threeServiceServer : Server :=
  { testServer with services :=
      [{ name := "svc_a", threads := some 2 },
       { name := "svc_b", threads := some 4 },
       { name := "svc_c", threads := none }] }

/-- A main-loop environment with a successful handoff and no SIGINT race. -/
def testEnv : MainLoopEnv :=
  { envSend := NixResult.ok 3, sigintDuringUpgrade := false }

/-- The server value that `Server.new none (NixResult.ok testConf)`
produces. -/
def newServer : Server :=
  { services := [], listen_fds := none,
    shutdown_watch := { value := false, hasReceivers := true },
    configuration := testConf, options := none }

/-- The pop loop of `run_services` builds exactly one runtime per service,
sized by the service's own thread count or the configured default. -/
theorem runServicesLoop_eq_map (conf : ServerConf) (fds : Option Fds)
    (shutdown : WatchChannel) (l : List Service) :
    runServicesLoop conf fds shutdown l =
      l.map (fun svc => Server.run_service svc fds shutdown
        (svc.threads.getD conf.threads) conf.work_stealing) := by
  induction l with
  | nil => rfl
  | cons svc rest ih => simp [runServicesLoop, ih]

/-- Mapping a constant over a list yields a replicate of its length. -/
theorem map_const_replicate {α β : Type} (e : β) (l : List α) :
    l.map (fun _ => e) = List.replicate l.length e := by
  induction l with
  | nil => rfl
  | cons a rest ih => simp [ih, List.replicate_succ]

/-- Mapping a function with constant result over a list yields a replicate
of its length. -/
theorem map_comp_const_replicate {α β γ : Type} (e : γ) (g : α → β)
    (l : List α) :
    l.map ((fun _ => e) ∘ g) = List.replicate l.length e := by
  induction l with
  | nil => rfl
  | cons a rest ih => simp [ih, List.replicate_succ]

/-- C1: with a listening-socket registry present, `graceful_upgrade`
always performs, after the transmission attempt and whatever its result,
the `CLOSE_TIMEOUT = 5` second sleep followed by the shutdown broadcast,
leaving the shutdown watch in exactly the state the graceful-terminate
path of `main_loop` produces. -/
theorem graceful_upgrade_broadcast_despite_send_failure
    (s : Server) (fds : Fds) (envSend : NixResult Nat) (env : MainLoopEnv)
    (h : s.listen_fds = some fds) :
    (s.graceful_upgrade envSend).1 =
      [Event.sendFdsAttempt envSend, Event.sleepSecs 5,
       Event.broadcastShutdown (s.shutdown_watch.send true).2] ∧
    CLOSE_TIMEOUT = 5 ∧
    ((s.graceful_upgrade envSend).2).shutdown_watch =
      ((s.main_loop ShutdownSignal.GracefulTerminate env).2.1).shutdown_watch := by
  simp [Server.graceful_upgrade, Server.send_fds, Server.main_loop, h,
    CLOSE_TIMEOUT]

/-- C1 witness: a failing transmission on a concrete server still sleeps
five seconds and broadcasts. -/
theorem graceful_upgrade_broadcast_despite_send_failure_w :
    (testServer.graceful_upgrade (NixResult.err 32)).1 =
      [Event.sendFdsAttempt (NixResult.err 32), Event.sleepSecs 5,
       Event.broadcastShutdown (testServer.shutdown_watch.send true).2] ∧
    CLOSE_TIMEOUT = 5 ∧
    ((testServer.graceful_upgrade (NixResult.err 32)).2).shutdown_watch =
      ((testServer.main_loop ShutdownSignal.GracefulTerminate
          testEnv).2.1).shutdown_watch :=
  graceful_upgrade_broadcast_despite_send_failure testServer Fds.new
    (NixResult.err 32) testEnv rfl

/-- C2: on a fast-exit signal the main loop returns `Quick` and leaves the
server state (in particular the shutdown flag) untouched — no broadcast is
sent — and the whole `run_forever` trace is exactly one zero-second
runtime shutdown per registered service: no broadcast event and no grace
sleep occur at all. -/
theorem fast_exit_skips_grace_and_broadcast (s : Server) (env : MainLoopEnv) :
    (s.main_loop ShutdownSignal.Fast env).2.2 = ShutdownType.Quick ∧
    (s.main_loop ShutdownSignal.Fast env).2.1 = s ∧
    (s.run_forever ShutdownSignal.Fast env).1 =
      List.replicate s.services.length (Event.runtimeShutdown 0) := by
  refine ⟨rfl, rfl, ?_⟩
  simp [Server.run_forever, Server.run_services, Server.main_loop,
    exitSequence, shutdownTimeout, runServicesLoop_eq_map, map_const_replicate, map_comp_const_replicate, List.reverse_replicate]

/-- C3: on any graceful outcome (terminate or upgrade) the main loop
returns `Graceful`, `run_forever` sleeps exactly `EXIT_TIMEOUT = 300`
seconds after the main loop's own steps, and then every service runtime is
shut down with the five-second graceful timeout. -/
theorem graceful_outcome_grace_period_and_timeout
    (s : Server) (env : MainLoopEnv) (sig : ShutdownSignal)
    (h : sig ≠ ShutdownSignal.Fast) :
    EXIT_TIMEOUT = 300 ∧
    (({ s with services := [] } : Server).main_loop sig env).2.2 =
      ShutdownType.Graceful ∧
    (s.run_forever sig env).1 =
      (({ s with services := [] } : Server).main_loop sig env).1 ++
        Event.graceSleep 300 ::
          List.replicate s.services.length (Event.runtimeShutdown 5) := by
  obtain ⟨es, b⟩ := env
  cases sig with
  | Fast => exact absurd rfl h
  | GracefulTerminate =>
      refine ⟨rfl, rfl, ?_⟩
      simp [Server.run_forever, Server.run_services, Server.main_loop,
        exitSequence, shutdownTimeout, EXIT_TIMEOUT, runServicesLoop_eq_map,
        map_const_replicate, map_comp_const_replicate, List.reverse_replicate]
  | GracefulUpgrade =>
      cases b with
      | true =>
          refine ⟨rfl, rfl, ?_⟩
          simp [Server.run_forever, Server.run_services, Server.main_loop,
            exitSequence, shutdownTimeout, EXIT_TIMEOUT, runServicesLoop_eq_map,
            map_const_replicate, map_comp_const_replicate, List.reverse_replicate]
      | false =>
          refine ⟨rfl, rfl, ?_⟩
          simp [Server.run_forever, Server.run_services, Server.main_loop,
            exitSequence, shutdownTimeout, EXIT_TIMEOUT, runServicesLoop_eq_map,
            map_const_replicate, map_comp_const_replicate, List.reverse_replicate]

/-- C3 witness: concrete graceful-terminate run on a concrete server. -/
theorem graceful_outcome_grace_period_and_timeout_w :
    EXIT_TIMEOUT = 300 ∧
    (({ testServer with services := [] } : Server).main_loop
        ShutdownSignal.GracefulTerminate testEnv).2.2 =
      ShutdownType.Graceful ∧
    (testServer.run_forever ShutdownSignal.GracefulTerminate testEnv).1 =
      (({ testServer with services := [] } : Server).main_loop
          ShutdownSignal.GracefulTerminate testEnv).1 ++
        Event.graceSleep 300 ::
          List.replicate testServer.services.length
            (Event.runtimeShutdown 5) :=
  graceful_outcome_grace_period_and_timeout testServer testEnv
    ShutdownSignal.GracefulTerminate (by decide)

/-- C4: the classifier resolves, on the first arriving recognized signal,
to exactly the matching outcome (interrupt to `Fast`, terminate to
`GracefulTerminate`, quit to `GracefulUpgrade`); the outcome never depends
on signals arriving after the first one (no queueing); and on non-unix
platforms the only reachable resolved outcome is `Fast`. -/
theorem wait_for_shutdown_signal_classification :
    (∀ rest, wait_for_shutdown_signal true (OsSignal.sigint :: rest) =
        some ShutdownSignal.Fast) ∧
    (∀ rest, wait_for_shutdown_signal true (OsSignal.sigterm :: rest) =
        some ShutdownSignal.GracefulTerminate) ∧
    (∀ rest, wait_for_shutdown_signal true (OsSignal.sigquit :: rest) =
        some ShutdownSignal.GracefulUpgrade) ∧
    (∀ sig rest rest2, wait_for_shutdown_signal true (sig :: rest) =
        wait_for_shutdown_signal true (sig :: rest2)) ∧
    (∀ arrivals, wait_for_shutdown_signal false arrivals = none ∨
        wait_for_shutdown_signal false arrivals = some ShutdownSignal.Fast) := by
  refine ⟨fun rest => rfl, fun rest => rfl, fun rest => rfl, ?_, ?_⟩
  · intro sig rest rest2
    cases sig <;> rfl
  · intro arrivals
    induction arrivals with
    | nil => exact Or.inl rfl
    | cons a l ih =>
        cases a with
        | sigint => exact Or.inr rfl
        | sigterm =>
            simpa [wait_for_shutdown_signal, List.find?, signalListens]
              using ih
        | sigquit =>
            simpa [wait_for_shutdown_signal, List.find?, signalListens]
              using ih

/-- Any single main-loop step either writes `true` to the shutdown flag or
leaves it at its previous value: the orchestrator never sends `false`. -/
theorem main_loop_watch_value (s : Server) (sig : ShutdownSignal)
    (env : MainLoopEnv) :
    ((s.main_loop sig env).2.1).shutdown_watch.value = true ∨
    ((s.main_loop sig env).2.1).shutdown_watch.value =
      s.shutdown_watch.value := by
  cases sig with
  | Fast => exact Or.inr rfl
  | GracefulTerminate =>
      by_cases hr : s.shutdown_watch.hasReceivers = true
      · left
        simp [Server.main_loop, WatchChannel.send, hr]
      · right
        simp [Server.main_loop, WatchChannel.send, hr]
  | GracefulUpgrade =>
      by_cases hi : env.sigintDuringUpgrade = true
      · right
        simp [Server.main_loop, hi]
      · cases hf : s.listen_fds with
        | none =>
            right
            simp [Server.main_loop, Server.graceful_upgrade, Server.send_fds,
              hi, hf]
        | some fds =>
            by_cases hr : s.shutdown_watch.hasReceivers = true
            · left
              simp [Server.main_loop, Server.graceful_upgrade,
                Server.send_fds, WatchChannel.send, hi, hf, hr]
            · right
              simp [Server.main_loop, Server.graceful_upgrade,
                Server.send_fds, WatchChannel.send, hi, hf, hr]

/-- C5: the process exits with code 0 on the validate-only early exit and
on normal end-of-life shutdown after `run_forever`, and with code 1 when
bootstrap fails to receive the listening sockets over the control socket;
in both bootstrap-exit cases no service is ever started. -/
theorem exit_codes (s : Server) (envRead : NixResult (List Nat))
    (sig : ShutdownSignal) (env : MainLoopEnv) (e : Nat) (s2 : Server) :
    ((s.options.map Opt.test).getD false = true →
        s.process_run envRead sig env = (0, 0)) ∧
    ((s.options.map Opt.test).getD false = false →
      (s.options.map Opt.upgrade).getD false = true →
      envRead = NixResult.err e →
        s.process_run envRead sig env = (1, 0)) ∧
    ((s.bootstrap envRead).2 = BootstrapResult.ok s2 →
        (s.process_run envRead sig env).1 = 0) := by
  refine ⟨?_, ?_, ?_⟩
  · intro ht
    simp [Server.process_run, Server.bootstrap, ht]
  · intro ht hu he
    subst he
    simp [Server.process_run, Server.bootstrap, Server.load_fds, ht, hu]
  · intro hok
    simp [Server.process_run, hok, Server.run_forever]

/-- C5 witness: concrete instances of all three exit-code cases. -/
theorem exit_codes_w :
    validateServer.process_run (NixResult.ok []) ShutdownSignal.Fast testEnv =
      (0, 0) ∧
    upgradeServer.process_run (NixResult.err 111) ShutdownSignal.Fast testEnv =
      (1, 0) ∧
    (noFdsServer.process_run (NixResult.ok []) ShutdownSignal.Fast
        testEnv).1 = 0 :=
  ⟨(exit_codes validateServer (NixResult.ok []) ShutdownSignal.Fast testEnv 0
      validateServer).1 rfl,
   (exit_codes upgradeServer (NixResult.err 111) ShutdownSignal.Fast testEnv
      111 upgradeServer).2.1 rfl rfl rfl,
   (exit_codes noFdsServer (NixResult.ok []) ShutdownSignal.Fast testEnv 0
      { noFdsServer with listen_fds := some Fds.new }).2.2 rfl⟩

/-- C6: on graceful terminate the main loop performs exactly the broadcast
attempt, setting the flag to `true` when the channel is open, and returns
`Graceful` whether or not the send succeeded — a failed send changes
nothing else. -/
theorem terminate_broadcast_failure_still_graceful
    (s : Server) (env : MainLoopEnv) :
    (s.main_loop ShutdownSignal.GracefulTerminate env).1 =
      [Event.broadcastShutdown (s.shutdown_watch.send true).2] ∧
    ((s.main_loop ShutdownSignal.GracefulTerminate env).2.1).shutdown_watch =
      (s.shutdown_watch.send true).1 ∧
    (s.main_loop ShutdownSignal.GracefulTerminate env).2.2 =
      ShutdownType.Graceful ∧
    (s.shutdown_watch.hasReceivers = true →
      ((s.main_loop ShutdownSignal.GracefulTerminate
          env).2.1).shutdown_watch.value = true) ∧
    (s.shutdown_watch.hasReceivers = false →
      (s.shutdown_watch.send true).2 = false ∧
      ((s.main_loop ShutdownSignal.GracefulTerminate
          env).2.1).shutdown_watch = s.shutdown_watch ∧
      (s.main_loop ShutdownSignal.GracefulTerminate env).2.2 =
        ShutdownType.Graceful) := by
  refine ⟨rfl, rfl, rfl, ?_, ?_⟩
  · intro h
    simp [Server.main_loop, WatchChannel.send, h]
  · intro h
    simp [Server.main_loop, WatchChannel.send, h]

/-- C6 witness: on a server whose broadcast channel is closed, the send
fails, the watch state is unchanged, and the outcome is still graceful. -/
theorem terminate_broadcast_failure_still_graceful_w :
    (closedWatchServer.shutdown_watch.send true).2 = false ∧
    ((closedWatchServer.main_loop ShutdownSignal.GracefulTerminate
        testEnv).2.1).shutdown_watch = closedWatchServer.shutdown_watch ∧
    (closedWatchServer.main_loop ShutdownSignal.GracefulTerminate
        testEnv).2.2 = ShutdownType.Graceful :=
  (terminate_broadcast_failure_still_graceful closedWatchServer
      testEnv).2.2.2.2 rfl

/-- C7: `run_services` empties the service collection and returns one
runtime per registered service, sized by that service's own thread count
when present and by the configured default otherwise; concretely, three
services with thread counts two, four and default (eight) yield exactly
three runtimes sized, in pop order, eight, four and two, leaving no
services behind. -/
theorem run_services_drains_and_sizes (s : Server) :
    (s.run_services).1.services = [] ∧
    (s.run_services).2.length = s.services.length ∧
    (s.run_services).2 =
      s.services.reverse.map (fun svc =>
        Server.run_service svc s.listen_fds s.shutdown_watch
          (svc.threads.getD s.configuration.threads)
          s.configuration.work_stealing) ∧
    (threeServiceServer.run_services).2.map Runtime.threads = [8, 4, 2] ∧
    (threeServiceServer.run_services).1.services = [] := by
  refine ⟨rfl, ?_, ?_, rfl, rfl⟩
  · simp [Server.run_services, runServicesLoop_eq_map]
  · simp [Server.run_services, runServicesLoop_eq_map]

/-- C8 counterexample: with options present whose upgrade flag is unset
but whose test (validate-only) flag is set, `bootstrap` exits early with
code 0 and never installs any registry, so an unset upgrade flag alone
does not guarantee a present-but-empty registry. -/
theorem bootstrap_upgrade_unset_counterexample :
    (validateServer.options.map Opt.upgrade).getD false = false ∧
    (validateServer.bootstrap (NixResult.ok [])).2 =
      BootstrapResult.exited 0 ∧
    ¬ ∃ s2 : Server, (validateServer.bootstrap (NixResult.ok [])).2 =
        BootstrapResult.ok s2 := by
  refine ⟨rfl, rfl, ?_⟩
  rintro ⟨s2, hs⟩
  exact BootstrapResult.noConfusion hs

/-- C8 amended: when the upgrade flag is unset (or no options are given)
and the validate-only early exit does not trigger, `bootstrap` attempts no
control-socket read (its trace is empty) and completes with a registry
that is present and is a freshly created empty descriptor collection. -/
theorem bootstrap_no_upgrade_fresh_registry (s : Server)
    (envRead : NixResult (List Nat))
    (h1 : (s.options.map Opt.upgrade).getD false = false)
    (h2 : (s.options.map Opt.test).getD false = false) :
    (s.bootstrap envRead).1 = [] ∧
    (s.bootstrap envRead).2 =
      BootstrapResult.ok { s with listen_fds := some Fds.new } := by
  simp [Server.bootstrap, Server.load_fds, h1, h2]

/-- C8 amended witness: a server with no options at all. -/
theorem bootstrap_no_upgrade_fresh_registry_w :
    (noFdsServer.bootstrap (NixResult.ok [])).1 = [] ∧
    (noFdsServer.bootstrap (NixResult.ok [])).2 =
      BootstrapResult.ok { noFdsServer with listen_fds := some Fds.new } :=
  bootstrap_no_upgrade_fresh_registry noFdsServer (NixResult.ok []) rfl rfl

/-- C9: the shutdown flag starts `false` at `Server::new`; every main-loop
step either writes `true` or leaves the flag at its previous value (the
orchestrator only ever sends `true`), so a flag observed `true` never goes
back to `false`; and a second send of `true` is a no-op on the channel
state (and, being a total function, cannot panic). -/
theorem shutdown_watch_monotone_idempotent
    (opt : Option Opt) (conf : ServerConf) (s s0 : Server)
    (sig : ShutdownSignal) (env : MainLoopEnv) (w : WatchChannel) :
    (Server.new opt (NixResult.ok conf) = NixResult.ok s0 →
        s0.shutdown_watch.value = false) ∧
    (((s.main_loop sig env).2.1).shutdown_watch.value = true ∨
      ((s.main_loop sig env).2.1).shutdown_watch.value =
        s.shutdown_watch.value) ∧
    (s.shutdown_watch.value = true →
        ((s.main_loop sig env).2.1).shutdown_watch.value = true) ∧
    ((w.send true).1.send true).1 = (w.send true).1 := by
  refine ⟨?_, main_loop_watch_value s sig env, ?_, ?_⟩
  · intro h
    injection h with h2
    rw [← h2]
  · intro hv
    rcases main_loop_watch_value s sig env with h | h
    · exact h
    · exact h.trans hv
  · by_cases hr : w.hasReceivers = true
    · simp [WatchChannel.send, hr]
    · simp [WatchChannel.send, hr]

/-- C9 witness: the freshly constructed server's flag is `false`, and a
main-loop step on a server whose flag is already `true` keeps it `true`. -/
theorem shutdown_watch_monotone_idempotent_w :
    newServer.shutdown_watch.value = false ∧
    ((firedWatchServer.main_loop ShutdownSignal.GracefulTerminate
        testEnv).2.1).shutdown_watch.value = true :=
  ⟨(shutdown_watch_monotone_idempotent none testConf firedWatchServer
      newServer ShutdownSignal.GracefulTerminate testEnv
      { value := false, hasReceivers := true }).1 rfl,
   (shutdown_watch_monotone_idempotent none testConf firedWatchServer
      newServer ShutdownSignal.GracefulTerminate testEnv
      { value := false, hasReceivers := true }).2.2.1 rfl⟩

/-- C10: with no listening-socket registry present, `graceful_upgrade`
only logs — no sleep, no broadcast, the server (and so the shutdown flag)
unchanged — while the main loop still returns `Graceful`, so `run_forever`
still performs the long grace sleep and the five-second graceful runtime
shutdowns. -/
theorem upgrade_no_registry_frame (s : Server) (env : MainLoopEnv)
    (h : s.listen_fds = none) :
    (s.graceful_upgrade env.envSend).1 = [Event.logNoSocks] ∧
    (s.graceful_upgrade env.envSend).2 = s ∧
    (s.main_loop ShutdownSignal.GracefulUpgrade env).2.2 =
      ShutdownType.Graceful ∧
    ((s.main_loop ShutdownSignal.GracefulUpgrade
        env).2.1).shutdown_watch.value = s.shutdown_watch.value ∧
    (s.run_forever ShutdownSignal.GracefulUpgrade env).1 =
      (({ s with services := [] } : Server).main_loop
          ShutdownSignal.GracefulUpgrade env).1 ++
        Event.graceSleep EXIT_TIMEOUT ::
          List.replicate s.services.length (Event.runtimeShutdown 5) := by
  obtain ⟨es, b⟩ := env
  cases b with
  | true =>
      refine ⟨?_, ?_, rfl, rfl, ?_⟩
      · simp [Server.graceful_upgrade, Server.send_fds, h]
      · simp [Server.graceful_upgrade, Server.send_fds, h]
      · simp [Server.run_forever, Server.run_services, Server.main_loop,
          exitSequence, shutdownTimeout, runServicesLoop_eq_map,
          map_const_replicate, map_comp_const_replicate,
          List.reverse_replicate]
  | false =>
      refine ⟨?_, ?_, rfl, ?_, ?_⟩
      · simp [Server.graceful_upgrade, Server.send_fds, h]
      · simp [Server.graceful_upgrade, Server.send_fds, h]
      · simp [Server.main_loop, Server.graceful_upgrade, Server.send_fds, h]
      · simp [Server.run_forever, Server.run_services, Server.main_loop,
          exitSequence, shutdownTimeout, runServicesLoop_eq_map,
          map_const_replicate, map_comp_const_replicate,
          List.reverse_replicate]

/-- C10 witness: a concrete server with no registry. -/
theorem upgrade_no_registry_frame_w :
    (noFdsServer.graceful_upgrade testEnv.envSend).1 = [Event.logNoSocks] ∧
    (noFdsServer.graceful_upgrade testEnv.envSend).2 = noFdsServer ∧
    (noFdsServer.main_loop ShutdownSignal.GracefulUpgrade testEnv).2.2 =
      ShutdownType.Graceful ∧
    ((noFdsServer.main_loop ShutdownSignal.GracefulUpgrade
        testEnv).2.1).shutdown_watch.value =
      noFdsServer.shutdown_watch.value ∧
    (noFdsServer.run_forever ShutdownSignal.GracefulUpgrade testEnv).1 =
      (({ noFdsServer with services := [] } : Server).main_loop
          ShutdownSignal.GracefulUpgrade testEnv).1 ++
        Event.graceSleep EXIT_TIMEOUT ::
          List.replicate noFdsServer.services.length
            (Event.runtimeShutdown 5) :=
  upgrade_no_registry_frame noFdsServer testEnv rfl

end Pingora
